import Mathlib

/-!
Verification development for the swg-js auto-prompt decision engine and the
page-config resolver.

The repository sources available are:
* src/model/page-config-resolver.js (embedded below for the resolver claims),
* src/model/client-config.js (the ClientConfig container),
* src/runtime/auto-prompt-manager-test.js (the AutoPromptManager test suite).

The AutoPromptManager implementation itself (src/runtime/auto-prompt-manager.js)
is not among the sources; its behavior is modelled from the specification,
constrained by the observable behavior the test suite pins down (fetch counts,
storage access counts, prompt invocation counts per scenario).  All definitions
modelled this way carry a doc comment starting with "Modelled from the spec:".

Timestamps are epoch milliseconds, embedded as Int.  The asynchronous
store / fetch collaborators are embedded by explicit effect counting: each
decision run is a pure function from its inputs to an outcome record that
counts the fetches, storage reads and prompt invocations the run performs.
-/

/-- PageConfig (src/model/page-config.js): the resolved product identifier and
the paywall lock state of the page. -/
structure PageConfig where
  productId : String
  locked : Bool
deriving DecidableEq, Repr

/-- AutoPromptType enumeration (src/api/basic-subscriptions.js).  The absent
(undefined) case is represented as Option.none at use sites. -/
inductive AutoPromptType
  | CONTRIBUTION
  | CONTRIBUTION_LARGE
  | SUBSCRIPTION
  | SUBSCRIPTION_LARGE
  | NONE
deriving DecidableEq, Repr

/-- UiPredicates (src/model/auto-prompt-config.js): server-side override
gates. -/
structure UiPredicates where
  canDisplayAutoPrompt : Bool
  canDisplayButton : Bool
deriving DecidableEq, Repr

/-- AutoPromptConfig (src/model/auto-prompt-config.js): the remote
frequency-capping policy.  Constructor argument order follows the test file:
maxImpressionsPerWeek, displayDelaySeconds, backoffSeconds,
maxDismissalsPerWeek, maxDismissalsResultingHideSeconds.  Absent caps are
none; the scalar durations default to 0 when absent. -/
structure AutoPromptConfig where
  maxImpressionsPerWeek : Option Nat
  displayDelaySeconds : Nat
  backoffSeconds : Nat
  maxDismissalsPerWeek : Option Nat
  maxDismissalsResultingHideSeconds : Nat
deriving DecidableEq, Repr

/-- ClientConfig (src/model/client-config.js): aggregates the auto-prompt
policy, UI predicates and flags.  The boolean flags default to false in the
source constructor; attributionParams is out of core scope and omitted. -/
structure ClientConfig where
  autoPromptConfig : Option AutoPromptConfig
  paySwgVersion : Option String
  usePrefixedHostPath : Bool
  useUpdatedOfferFlows : Bool
  uiPredicates : Option UiPredicates
deriving DecidableEq, Repr

/-- A ClientConfig built with no options, as new ClientConfig() in the tests. -/
def ClientConfig.empty : ClientConfig :=
  ⟨none, none, false, false, none⟩

/-- One second in epoch milliseconds. -/
def SECOND_IN_MS : Int := 1000

/-- One week in epoch milliseconds (7 * 24 * 60 * 60 * 1000). -/
def WEEK_IN_MS : Int := 604800000

/-- Count of timestamps of a log that fall within the trailing 7-day window
ending at now (now - timestamp <= one week). -/
def recentCount (log : List Int) (now : Int) : Nat :=
  (log.filter (fun t => now - t ≤ WEEK_IN_MS)).length

/-- Modelled from the spec: rule 1 of the frequency-cap evaluator of the
absent auto-prompt-manager.js.  If maxImpressionsPerWeek is set and the count
of impressions within the trailing week is at least the cap, suppress. -/
def impressionsCapSuppresses (c : AutoPromptConfig) (imps : List Int)
    (now : Int) : Bool :=
  match c.maxImpressionsPerWeek with
  | none => false
  | some cap => decide (cap ≤ recentCount imps now)

/-- Modelled from the spec: rule 2 of the frequency-cap evaluator of the
absent auto-prompt-manager.js.  If maxDismissalsPerWeek is set, the count of
dismissals within the trailing week is at least the cap, and the latest
dismissal is less than maxDismissalsResultingHideSeconds ago, suppress.  Once
that hide window has elapsed this rule no longer suppresses. -/
def dismissalCapSuppresses (c : AutoPromptConfig) (dism : List Int)
    (now : Int) : Bool :=
  match c.maxDismissalsPerWeek with
  | none => false
  | some cap =>
    if cap ≤ recentCount dism now then
      match dism.max? with
      | none => false
      | some last =>
        decide (now - last < (c.maxDismissalsResultingHideSeconds : Int) *
          SECOND_IN_MS)
    else false

/-- Modelled from the spec: the dismissal backoff rule of the absent
auto-prompt-manager.js.  The spec's data model carries backoffSeconds and the
test suite pins its behavior (auto-prompt-manager-test.js lines 591-671): if
backoffSeconds is nonzero and the latest dismissal is less than backoffSeconds
ago, suppress, independently of the weekly dismissal cap. -/
def backoffSuppresses (c : AutoPromptConfig) (dism : List Int)
    (now : Int) : Bool :=
  if c.backoffSeconds = 0 then false
  else
    match dism.max? with
    | none => false
    | some last => decide (now - last < (c.backoffSeconds : Int) * SECOND_IN_MS)

/-- Modelled from the spec: the frequency-cap evaluator of the absent
auto-prompt-manager.js, a pure function of the impressions log, the
dismissals log, the policy and the current time; true means the mini prompt
may display. -/
def frequencyCapPermits (c : AutoPromptConfig) (imps dism : List Int)
    (now : Int) : Bool :=
  !(impressionsCapSuppresses c imps now) &&
  !(dismissalCapSuppresses c dism now) &&
  !(backoffSuppresses c dism now)

/-- Configuration used by the C1 counterexample: impression cap 1 and
dismissal cap 1 with a 10-second hide duration. -/
def cfgC1 : AutoPromptConfig := ⟨some 1, 0, 0, some 1, 10⟩

/-- Configuration matching the spec's worked impression-cap example:
maxImpressionsPerWeek = 2, nothing else set. -/
def cfgImp2 : AutoPromptConfig := ⟨some 2, 0, 0, none, 0⟩

/-- C1: the claim quantifies over every dismissals log, but the evaluator also
has dismissal-based rules: with an empty impressions log (0 recent
impressions, under the cap of 1) and a dismissal 5 ms ago under a dismissal
cap of 1 with a 10 s hide window, the evaluator suppresses, so suppression is
not exactly the impressions-cap condition. -/
theorem frequencyCap_impressions_counterexample :
    frequencyCapPermits cfgC1 [] [0] 5 = false ∧
    recentCount [] 5 < 1 := by
  constructor
  · decide
  · decide

/-- C1 (amended): for every impressions log, dismissals log, config with
maxImpressionsPerWeek set and time now, provided the dismissals log triggers
neither the dismissal-cap rule nor the backoff rule (in particular whenever
it is empty), the evaluator suppresses exactly when the count of impression
timestamps within the trailing week (now - t <= 604800000 ms) is at least the
cap; older impressions are discounted. -/
theorem frequencyCap_impressions_iff (c : AutoPromptConfig)
    (imps dism : List Int) (now : Int) (cap : Nat)
    (hcap : c.maxImpressionsPerWeek = some cap)
    (hdism : dismissalCapSuppresses c dism now = false)
    (hback : backoffSuppresses c dism now = false) :
    frequencyCapPermits c imps dism now = false ↔
      cap ≤ recentCount imps now := by
  simp [frequencyCapPermits, hdism, hback, impressionsCapSuppresses, hcap]

/-- C1 witness: the spec's worked example.  Cap 2, one impression at now and
one two weeks old: only one impression is within the window, so display is
permitted (the old entry is discounted). -/
theorem frequencyCap_impressions_iff_witness :
    cfgImp2.maxImpressionsPerWeek = some 2 ∧
    dismissalCapSuppresses cfgImp2 [] 1209600005 = false ∧
    backoffSuppresses cfgImp2 [] 1209600005 = false ∧
    (frequencyCapPermits cfgImp2 [1209600005, 5] [] 1209600005 = false ↔
      2 ≤ recentCount [1209600005, 5] 1209600005) ∧
    recentCount [1209600005, 5] 1209600005 = 1 := by
  refine ⟨rfl, by decide, by decide, ?_, by decide⟩
  exact frequencyCap_impressions_iff cfgImp2 [1209600005, 5] [] 1209600005 2
    rfl (by decide) (by decide)

/-- Configuration used by the C2 counterexample: impression cap 1, dismissal
cap 1 with a 10-second hide duration. -/
def cfgC2 : AutoPromptConfig := ⟨some 1, 0, 0, some 1, 10⟩

/-- Configuration matching the spec's worked dismissal-cap example:
maxDismissalsPerWeek = 1, maxDismissalsResultingHideSeconds = 10, no
impression cap. -/
def cfgDism1 : AutoPromptConfig := ⟨none, 0, 0, some 1, 10⟩

/-- C2: the claim says that once the hide duration has elapsed the evaluator
permits display regardless of the historical dismissal count, but other rules
still apply: with the dismissal cap reached (one dismissal at time 0, cap 1)
and the 10 s hide window elapsed at now = 20000, an impressions log over the
impression cap still makes the evaluator suppress. -/
theorem frequencyCap_dismissals_counterexample :
    1 ≤ recentCount [0] 20000 ∧
    ¬(20000 - 0 < (10 : Int) * SECOND_IN_MS) ∧
    frequencyCapPermits cfgC2 [20000] [0] 20000 = false := by
  refine ⟨by decide, by decide, by decide⟩

/-- C2 (amended): for every dismissals log whose count of timestamps within
the trailing week is at least maxDismissalsPerWeek, provided neither the
impressions cap nor the dismissal backoff independently suppresses, the
evaluator suppresses exactly when now minus the maximum dismissal timestamp
is less than maxDismissalsResultingHideSeconds * 1000; once the hide duration
has elapsed it permits display regardless of the dismissal count. -/
theorem frequencyCap_dismissals_iff (c : AutoPromptConfig)
    (imps dism : List Int) (now last : Int) (cap : Nat)
    (hcap : c.maxDismissalsPerWeek = some cap)
    (hcount : cap ≤ recentCount dism now)
    (hlast : dism.max? = some last)
    (himp : impressionsCapSuppresses c imps now = false)
    (hback : backoffSuppresses c dism now = false) :
    frequencyCapPermits c imps dism now = false ↔
      now - last < (c.maxDismissalsResultingHideSeconds : Int) * SECOND_IN_MS := by
  simp [frequencyCapPermits, himp, hback, dismissalCapSuppresses, hcap,
    hcount, hlast]

/-- C2 witness: the spec's worked example.  Dismissal cap 1, hide duration
10 s, one dismissal 5 ms before now: suppression holds; the theorem is
applied at that input. -/
theorem frequencyCap_dismissals_iff_witness :
    cfgDism1.maxDismissalsPerWeek = some 1 ∧
    1 ≤ recentCount [0] 5 ∧
    ([(0 : Int)].max? = some 0) ∧
    impressionsCapSuppresses cfgDism1 [] 5 = false ∧
    backoffSuppresses cfgDism1 [(0 : Int)] 5 = false ∧
    frequencyCapPermits cfgDism1 [] [0] 5 = false := by
  refine ⟨rfl, by decide, by decide, by decide, by decide, ?_⟩
  exact (frequencyCap_dismissals_iff cfgDism1 [] [0] 5 0 1 rfl (by decide)
    (by decide) (by decide) (by decide)).mpr (by decide)

/-- Analytics events relevant to the engine (src/proto/api_messages.js),
restricted to the kinds exercised by the test suite plus the four qualifying
mini-prompt kinds. -/
inductive AnalyticsEvent
  | IMPRESSION_SWG_CONTRIBUTION_MINI_PROMPT
  | IMPRESSION_SWG_SUBSCRIPTION_MINI_PROMPT
  | ACTION_SWG_CONTRIBUTION_MINI_PROMPT_CLOSE
  | ACTION_SWG_SUBSCRIPTION_MINI_PROMPT_CLOSE
  | IMPRESSION_AD
  | IMPRESSION_OFFERS
  | ACTION_SUBSCRIPTION_OFFERS_CLOSED
deriving DecidableEq, Repr

/-- Modelled from the spec: the impression event kinds the absent
auto-prompt-manager.js records, per spec section 4.1 (contribution or
subscription mini-prompt impressions). -/
def isImpressionEvent : AnalyticsEvent → Bool
  | .IMPRESSION_SWG_CONTRIBUTION_MINI_PROMPT => true
  | .IMPRESSION_SWG_SUBSCRIPTION_MINI_PROMPT => true
  | _ => false

/-- Modelled from the spec: the dismissal event kinds the absent
auto-prompt-manager.js records, per spec section 4.1 (contribution or
subscription mini-prompt close). -/
def isDismissalEvent : AnalyticsEvent → Bool
  | .ACTION_SWG_CONTRIBUTION_MINI_PROMPT_CLOSE => true
  | .ACTION_SWG_SUBSCRIPTION_MINI_PROMPT_CLOSE => true
  | _ => false

/-- The two fixed storage keys of the local event store (the test file's
autopromptimp and autopromptdismiss keys). -/
inductive StorageKey
  | impressions
  | dismissals
deriving DecidableEq, Repr

/-- The persisted event history: the comma-joined timestamp strings are
abstracted to the epoch-millisecond lists they encode, in insertion order. -/
structure StorageState where
  impressionsLog : List Int
  dismissalsLog : List Int
deriving DecidableEq, Repr

/-- The storage accesses one event-listener invocation performs: the keys it
reads, in order, and the writes it issues as key and written log value. -/
structure EventStoreEffect where
  getKeys : List StorageKey
  setWrites : List (StorageKey × List Int)
deriving DecidableEq, Repr

/-- Modelled from the spec: the event-listener of the absent
auto-prompt-manager.js.  On a locked page no store access occurs.  Otherwise
a qualifying impression (resp. dismissal) event performs one get of the
corresponding log followed by one set whose value keeps the prior entries in
order and appends the current timestamp; any other event performs no store
access. -/
def handleClientEvent (locked : Bool) (st : StorageState) (now : Int)
    (e : AnalyticsEvent) : EventStoreEffect :=
  if locked then ⟨[], []⟩
  else if isImpressionEvent e then
    ⟨[StorageKey.impressions],
      [(StorageKey.impressions, st.impressionsLog ++ [now])]⟩
  else if isDismissalEvent e then
    ⟨[StorageKey.dismissals],
      [(StorageKey.dismissals, st.dismissalsLog ++ [now])]⟩
  else ⟨[], []⟩

/-- The showAutoPrompt request: the prompt type (none embeds the undefined
JavaScript argument), the alwaysShow override, and whether a
displayLargePromptFn callback was supplied. -/
structure AutoPromptParams where
  autoPromptType : Option AutoPromptType
  alwaysShow : Bool
  hasDisplayLargePromptFn : Bool
deriving DecidableEq, Repr

/-- The environment one showAutoPrompt run observes: the page lock state, the
entitlement outcome the entitlement fetch would produce, the client config
the config fetch would produce, the stored logs, and the current time. -/
structure PromptEnv where
  pageIsLocked : Bool
  entitlementsEnableThis : Bool
  clientConfig : ClientConfig
  impressionsLog : List Int
  dismissalsLog : List Int
  now : Int
deriving DecidableEq, Repr

/-- The observable outcome of one showAutoPrompt run: how many entitlement
fetches, client-config fetches, storage reads per key, mini-prompt create
calls and large-prompt callback invocations it performs. -/
structure PromptOutcome where
  entitlementsFetches : Nat
  clientConfigFetches : Nat
  impressionsReads : Nat
  dismissalsReads : Nat
  miniPromptCreates : Nat
  largePromptCalls : Nat
deriving DecidableEq, Repr

/-- The mini (frequency-capped) prompt types. -/
def isMiniPromptType : Option AutoPromptType → Bool
  | some .CONTRIBUTION => true
  | some .SUBSCRIPTION => true
  | _ => false

/-- The large (non-frequency-capped) prompt types. -/
def isLargePromptType : Option AutoPromptType → Bool
  | some .CONTRIBUTION_LARGE => true
  | some .SUBSCRIPTION_LARGE => true
  | _ => false

/-- Modelled from the spec: the prompt dispatch of the absent
auto-prompt-manager.js.  A mini type triggers one mini-prompt create; a large
type invokes the supplied large-prompt callback once; NONE or undefined
triggers nothing.  Returns (mini-prompt creates, large-prompt calls). -/
def showPromptCounts (t : Option AutoPromptType) (hasFn : Bool) : Nat × Nat :=
  if isMiniPromptType t then (1, 0)
  else if isLargePromptType t && hasFn then (0, 1)
  else (0, 0)

/-- Modelled from the spec: the UI-predicate gate of the absent
auto-prompt-manager.js.  Suppresses when useUpdatedOfferFlows is set and the
returned uiPredicates disallow the auto prompt. -/
def uiPredicateSuppresses (cc : ClientConfig) : Bool :=
  cc.useUpdatedOfferFlows &&
    (match cc.uiPredicates with
     | some u => !u.canDisplayAutoPrompt
     | none => false)

/-- Modelled from the spec: the eligibility decision of the absent
auto-prompt-manager.js after both fetches resolve.  Returns the decision and
whether the stored logs were read.  Suppression points, in order: unsupported
type (undefined or NONE), an entitlement enabling the product, a locked page
(handled by the alternate-prompt fallback instead), the UI-predicate gate,
an absent autoPromptConfig (the test suite pins suppression here, contrary to
the spec's allowed-by-default wording); otherwise both logs are read once and
the frequency-cap evaluator decides. -/
def shouldShowAutoPrompt (env : PromptEnv) (t : Option AutoPromptType) :
    Bool × Bool :=
  if t = none ∨ t = some AutoPromptType.NONE then (false, false)
  else if env.entitlementsEnableThis then (false, false)
  else if env.pageIsLocked then (false, false)
  else if uiPredicateSuppresses env.clientConfig then (false, false)
  else
    match env.clientConfig.autoPromptConfig with
    | none => (false, false)
    | some c =>
      (frequencyCapPermits c env.impressionsLog env.dismissalsLog env.now,
        true)

/-- Modelled from the spec: the locked-page fallback of the absent
auto-prompt-manager.js — when the page is paygated and no entitlement enables
it, the large-prompt callback is preferred. -/
def shouldShowAlternatePrompt (env : PromptEnv) : Bool :=
  env.pageIsLocked && !env.entitlementsEnableThis

/-- Modelled from the spec: showAutoPrompt of the absent
auto-prompt-manager.js.  With alwaysShow all fetching is skipped and the
prompt for the requested type is triggered immediately.  Otherwise the
entitlements and the client config are both fetched once, the eligibility
decision runs, and either the decided prompt is shown (after the configured
delay, irrelevant to the counted outcome) or, failing that, the locked-page
fallback may invoke the large-prompt callback. -/
def showAutoPrompt (env : PromptEnv) (p : AutoPromptParams) : PromptOutcome :=
  if p.alwaysShow then
    let ml := showPromptCounts p.autoPromptType p.hasDisplayLargePromptFn
    ⟨0, 0, 0, 0, ml.1, ml.2⟩
  else
    let sr := shouldShowAutoPrompt env p.autoPromptType
    let reads : Nat := if sr.2 then 1 else 0
    if sr.1 then
      let ml := showPromptCounts p.autoPromptType p.hasDisplayLargePromptFn
      ⟨1, 1, reads, reads, ml.1, ml.2⟩
    else if shouldShowAlternatePrompt env && p.hasDisplayLargePromptFn then
      ⟨1, 1, reads, reads, 0, 1⟩
    else
      ⟨1, 1, reads, reads, 0, 0⟩

theorem shouldShow_eq_false_of_noneType (env : PromptEnv)
    (t : Option AutoPromptType)
    (h : t = none ∨ t = some AutoPromptType.NONE) :
    shouldShowAutoPrompt env t = (false, false) := by
  simp [shouldShowAutoPrompt, h]

theorem shouldShow_eq_false_of_entitled (env : PromptEnv)
    (t : Option AutoPromptType) (he : env.entitlementsEnableThis = true) :
    shouldShowAutoPrompt env t = (false, false) := by
  by_cases h : t = none ∨ t = some AutoPromptType.NONE
  · simp [shouldShowAutoPrompt, h]
  · simp [shouldShowAutoPrompt, h, he]

theorem shouldShow_eq_false_of_locked (env : PromptEnv)
    (t : Option AutoPromptType) (hl : env.pageIsLocked = true)
    (he : env.entitlementsEnableThis = false) :
    shouldShowAutoPrompt env t = (false, false) := by
  by_cases h : t = none ∨ t = some AutoPromptType.NONE
  · simp [shouldShowAutoPrompt, h]
  · simp [shouldShowAutoPrompt, h, he, hl]

theorem shouldShow_eq_false_of_uiPredicate (env : PromptEnv)
    (t : Option AutoPromptType)
    (hu : uiPredicateSuppresses env.clientConfig = true) :
    shouldShowAutoPrompt env t = (false, false) := by
  by_cases h : t = none ∨ t = some AutoPromptType.NONE
  · simp [shouldShowAutoPrompt, h]
  · cases he : env.entitlementsEnableThis <;>
      cases hl : env.pageIsLocked <;>
        simp [shouldShowAutoPrompt, h, he, hl, hu]

theorem shouldShow_eq_false_of_noConfig (env : PromptEnv)
    (t : Option AutoPromptType)
    (hc : env.clientConfig.autoPromptConfig = none) :
    shouldShowAutoPrompt env t = (false, false) := by
  by_cases h : t = none ∨ t = some AutoPromptType.NONE
  · simp [shouldShowAutoPrompt, h]
  · cases he : env.entitlementsEnableThis <;>
      cases hl : env.pageIsLocked <;>
        cases hup : uiPredicateSuppresses env.clientConfig <;>
          simp [shouldShowAutoPrompt, h, he, hl, hup, hc]

/-- C3: on a locked (paygated) page the event listener performs no store get
or set for any analytics event, and every showAutoPrompt run whose fetched
entitlements do not enable the product invokes the large-prompt callback
exactly once (and never the mini prompt), independent of the prompt type, the
frequency-cap state and the client config. -/
theorem lockedPage_no_store_and_always_large :
    (∀ (st : StorageState) (now : Int) (e : AnalyticsEvent),
        handleClientEvent true st now e = ⟨[], []⟩) ∧
    (∀ (env : PromptEnv) (p : AutoPromptParams),
        env.pageIsLocked = true → env.entitlementsEnableThis = false →
        p.alwaysShow = false → p.hasDisplayLargePromptFn = true →
        showAutoPrompt env p = ⟨1, 1, 0, 0, 0, 1⟩) := by
  constructor
  · intro st now e
    simp [handleClientEvent]
  · intro env p hl he ha hf
    have hs := shouldShow_eq_false_of_locked env p.autoPromptType hl he
    simp [showAutoPrompt, ha, hs, shouldShowAlternatePrompt, hl, he, hf]

/-- C3 witness: a locked page ignores an IMPRESSION_OFFERS event entirely,
and a locked-page showAutoPrompt run with no entitlement fetches both
sources, reads no logs, and calls the large-prompt callback once. -/
theorem lockedPage_no_store_and_always_large_witness :
    handleClientEvent true ⟨[3], [4]⟩ 9 AnalyticsEvent.IMPRESSION_OFFERS =
      ⟨[], []⟩ ∧
    showAutoPrompt ⟨true, false, ClientConfig.empty, [], [], 0⟩
      ⟨some AutoPromptType.CONTRIBUTION, false, true⟩ = ⟨1, 1, 0, 0, 0, 1⟩ := by
  exact ⟨lockedPage_no_store_and_always_large.1 ⟨[3], [4]⟩ 9
      AnalyticsEvent.IMPRESSION_OFFERS,
    lockedPage_no_store_and_always_large.2
      ⟨true, false, ClientConfig.empty, [], [], 0⟩
      ⟨some AutoPromptType.CONTRIBUTION, false, true⟩ rfl rfl rfl rfl⟩

/-- C4: when alwaysShow is false and the fetched entitlements enable the
product, neither the mini-prompt create nor the large-prompt callback is
invoked. -/
theorem entitled_suppresses_all_prompts (env : PromptEnv)
    (p : AutoPromptParams) (ha : p.alwaysShow = false)
    (he : env.entitlementsEnableThis = true) :
    (showAutoPrompt env p).miniPromptCreates = 0 ∧
    (showAutoPrompt env p).largePromptCalls = 0 := by
  have hs := shouldShow_eq_false_of_entitled env p.autoPromptType he
  simp [showAutoPrompt, ha, hs, shouldShowAlternatePrompt, he]

/-- C4 witness: an entitled visitor on an unlocked page sees no prompt. -/
theorem entitled_suppresses_all_prompts_witness :
    (showAutoPrompt ⟨false, true, ClientConfig.empty, [], [], 0⟩
      ⟨some AutoPromptType.CONTRIBUTION, false, true⟩).miniPromptCreates = 0 ∧
    (showAutoPrompt ⟨false, true, ClientConfig.empty, [], [], 0⟩
      ⟨some AutoPromptType.CONTRIBUTION, false, true⟩).largePromptCalls = 0 :=
  entitled_suppresses_all_prompts
    ⟨false, true, ClientConfig.empty, [], [], 0⟩
    ⟨some AutoPromptType.CONTRIBUTION, false, true⟩ rfl rfl

/-- C5: with alwaysShow true and a defined non-NONE type (callback supplied),
no entitlement or client-config fetch occurs and exactly one presentation is
triggered: the large-prompt callback for a large variant, otherwise one
mini-prompt create. -/
theorem alwaysShow_skips_fetches_and_shows (env : PromptEnv)
    (p : AutoPromptParams) (t : AutoPromptType)
    (ht : p.autoPromptType = some t) (hn : t ≠ AutoPromptType.NONE)
    (ha : p.alwaysShow = true) (hf : p.hasDisplayLargePromptFn = true) :
    (showAutoPrompt env p).entitlementsFetches = 0 ∧
    (showAutoPrompt env p).clientConfigFetches = 0 ∧
    (isLargePromptType p.autoPromptType = true →
      (showAutoPrompt env p).largePromptCalls = 1 ∧
      (showAutoPrompt env p).miniPromptCreates = 0) ∧
    (isLargePromptType p.autoPromptType = false →
      (showAutoPrompt env p).miniPromptCreates = 1 ∧
      (showAutoPrompt env p).largePromptCalls = 0) := by
  cases t <;>
    simp_all [showAutoPrompt, ha, ht, hf, showPromptCounts, isMiniPromptType,
      isLargePromptType]

/-- C5 witness: alwaysShow with CONTRIBUTION triggers one mini-prompt create
and performs no fetches. -/
theorem alwaysShow_skips_fetches_and_shows_witness :
    (showAutoPrompt ⟨false, false, ClientConfig.empty, [], [], 0⟩
      ⟨some AutoPromptType.CONTRIBUTION, true, true⟩).entitlementsFetches = 0 ∧
    isLargePromptType (some AutoPromptType.CONTRIBUTION) = false ∧
    (showAutoPrompt ⟨false, false, ClientConfig.empty, [], [], 0⟩
      ⟨some AutoPromptType.CONTRIBUTION, true, true⟩).miniPromptCreates = 1 := by
  have h := alwaysShow_skips_fetches_and_shows
    ⟨false, false, ClientConfig.empty, [], [], 0⟩
    ⟨some AutoPromptType.CONTRIBUTION, true, true⟩
    AutoPromptType.CONTRIBUTION rfl (by decide) rfl rfl
  exact ⟨h.1, rfl, (h.2.2.2 rfl).1⟩

/-- C6 counterexample: a showAutoPrompt call with undefined type and
alwaysShow false does fetch the entitlements and the client config exactly
once each (the test suite pins both fetches), so the engine is not terminal
before the fetch step as the claim states. -/
theorem noneType_counterexample :
    (showAutoPrompt ⟨false, false, ClientConfig.empty, [], [], 0⟩
      ⟨none, false, true⟩).entitlementsFetches = 1 ∧
    (showAutoPrompt ⟨false, false, ClientConfig.empty, [], [], 0⟩
      ⟨none, false, true⟩).clientConfigFetches = 1 := by
  constructor <;> rfl

/-- C6 (amended): with autoPromptType undefined or NONE no mini prompt is
ever created and no log is read; the large-prompt callback fires only through
the locked-page fallback (alwaysShow false, page locked, entitlements absent,
callback supplied); and the entitlement and client-config fetches still occur
exactly once each whenever alwaysShow is false (and not at all when it is
true). -/
theorem noneType_no_prompt_but_fetches (env : PromptEnv)
    (p : AutoPromptParams)
    (ht : p.autoPromptType = none ∨
      p.autoPromptType = some AutoPromptType.NONE) :
    (showAutoPrompt env p).miniPromptCreates = 0 ∧
    (showAutoPrompt env p).largePromptCalls =
      (if p.alwaysShow = false ∧ shouldShowAlternatePrompt env = true ∧
          p.hasDisplayLargePromptFn = true then 1 else 0) ∧
    (showAutoPrompt env p).entitlementsFetches =
      (if p.alwaysShow then 0 else 1) ∧
    (showAutoPrompt env p).clientConfigFetches =
      (if p.alwaysShow then 0 else 1) ∧
    (showAutoPrompt env p).impressionsReads = 0 ∧
    (showAutoPrompt env p).dismissalsReads = 0 := by
  have hs := shouldShow_eq_false_of_noneType env p.autoPromptType ht
  have hm : isMiniPromptType p.autoPromptType = false := by
    rcases ht with h | h <;> simp [isMiniPromptType, h]
  have hlg : isLargePromptType p.autoPromptType = false := by
    rcases ht with h | h <;> simp [isLargePromptType, h]
  cases ha : p.alwaysShow <;>
    cases halt : shouldShowAlternatePrompt env <;>
      cases hf : p.hasDisplayLargePromptFn <;>
        simp [showAutoPrompt, ha, hs, halt, hf, showPromptCounts, hm, hlg]

/-- C6 witness: NONE type with alwaysShow false on an unlocked page performs
both fetches, reads nothing, and shows nothing. -/
theorem noneType_no_prompt_but_fetches_witness :
    (showAutoPrompt ⟨false, false, ClientConfig.empty, [], [], 0⟩
      ⟨some AutoPromptType.NONE, false, true⟩).miniPromptCreates = 0 ∧
    (showAutoPrompt ⟨false, false, ClientConfig.empty, [], [], 0⟩
      ⟨some AutoPromptType.NONE, false, true⟩).entitlementsFetches = 1 := by
  have h := noneType_no_prompt_but_fetches
    ⟨false, false, ClientConfig.empty, [], [], 0⟩
    ⟨some AutoPromptType.NONE, false, true⟩ (Or.inr rfl)
  refine ⟨h.1, ?_⟩
  rw [h.2.2.1]
  simp

/-- C7 counterexample: on the mini-prompt path (alwaysShow false,
CONTRIBUTION, no entitlement, unlocked page) with a ClientConfig carrying no
autoPromptConfig, the mini prompt is not shown at all — the engine
suppresses instead of allowing it by default as the claim states (the test
suite pins zero mini-prompt creates here). -/
theorem noConfig_counterexample :
    (showAutoPrompt ⟨false, false, ClientConfig.empty, [], [], 0⟩
      ⟨some AutoPromptType.CONTRIBUTION, false, true⟩).miniPromptCreates = 0 ∧
    (showAutoPrompt ⟨false, false, ClientConfig.empty, [], [], 0⟩
      ⟨some AutoPromptType.CONTRIBUTION, false, true⟩).largePromptCalls = 0 := by
  constructor <;> rfl

/-- C7 (amended): when alwaysShow is false, the page is unlocked and the
fetched ClientConfig carries no autoPromptConfig, the engine suppresses: no
mini prompt, no large prompt, and cap evaluation is skipped entirely (no
storage reads). -/
theorem noConfig_suppresses (env : PromptEnv) (p : AutoPromptParams)
    (ha : p.alwaysShow = false) (hl : env.pageIsLocked = false)
    (hc : env.clientConfig.autoPromptConfig = none) :
    (showAutoPrompt env p).miniPromptCreates = 0 ∧
    (showAutoPrompt env p).largePromptCalls = 0 ∧
    (showAutoPrompt env p).impressionsReads = 0 ∧
    (showAutoPrompt env p).dismissalsReads = 0 := by
  have hs := shouldShow_eq_false_of_noConfig env p.autoPromptType hc
  simp [showAutoPrompt, ha, hs, shouldShowAlternatePrompt, hl]

/-- C7 witness: the no-autoPromptConfig scenario of the test suite evaluated
through the amended theorem. -/
theorem noConfig_suppresses_witness :
    (showAutoPrompt ⟨false, false, ClientConfig.empty, [], [], 5⟩
      ⟨some AutoPromptType.SUBSCRIPTION, false, true⟩).miniPromptCreates = 0 ∧
    (showAutoPrompt ⟨false, false, ClientConfig.empty, [], [], 5⟩
      ⟨some AutoPromptType.SUBSCRIPTION, false, true⟩).largePromptCalls = 0 ∧
    (showAutoPrompt ⟨false, false, ClientConfig.empty, [], [], 5⟩
      ⟨some AutoPromptType.SUBSCRIPTION, false, true⟩).impressionsReads = 0 ∧
    (showAutoPrompt ⟨false, false, ClientConfig.empty, [], [], 5⟩
      ⟨some AutoPromptType.SUBSCRIPTION, false, true⟩).dismissalsReads = 0 :=
  noConfig_suppresses ⟨false, false, ClientConfig.empty, [], [], 5⟩
    ⟨some AutoPromptType.SUBSCRIPTION, false, true⟩ rfl rfl rfl

/-- C8: a call that reaches the config gate (alwaysShow false, page not
locked) with useUpdatedOfferFlows set and uiPredicates disallowing the auto
prompt shows no prompt, whatever the prompt type, the entitlement state, the
impression history or the cap configuration. -/
theorem uiPredicate_false_suppresses (env : PromptEnv) (p : AutoPromptParams)
    (u : UiPredicates) (ha : p.alwaysShow = false)
    (hl : env.pageIsLocked = false)
    (ho : env.clientConfig.useUpdatedOfferFlows = true)
    (hu : env.clientConfig.uiPredicates = some u)
    (hcd : u.canDisplayAutoPrompt = false) :
    (showAutoPrompt env p).miniPromptCreates = 0 ∧
    (showAutoPrompt env p).largePromptCalls = 0 := by
  have hui : uiPredicateSuppresses env.clientConfig = true := by
    simp [uiPredicateSuppresses, ho, hu, hcd]
  have hs := shouldShow_eq_false_of_uiPredicate env p.autoPromptType hui
  simp [showAutoPrompt, ha, hs, shouldShowAlternatePrompt, hl]

/-- C8 witness: the UI-predicate scenario of the test suite — entitled
visitor, empty caps, canDisplayAutoPrompt false with useUpdatedOfferFlows —
shows nothing. -/
theorem uiPredicate_false_suppresses_witness :
    (showAutoPrompt
      ⟨false, true,
        ⟨some ⟨none, 0, 0, none, 0⟩, none, false, true, some ⟨false, true⟩⟩,
        [], [], 0⟩
      ⟨some AutoPromptType.CONTRIBUTION, false, true⟩).miniPromptCreates = 0 ∧
    (showAutoPrompt
      ⟨false, true,
        ⟨some ⟨none, 0, 0, none, 0⟩, none, false, true, some ⟨false, true⟩⟩,
        [], [], 0⟩
      ⟨some AutoPromptType.CONTRIBUTION, false, true⟩).largePromptCalls = 0 :=
  uiPredicate_false_suppresses
    ⟨false, true,
      ⟨some ⟨none, 0, 0, none, 0⟩, none, false, true, some ⟨false, true⟩⟩,
      [], [], 0⟩
    ⟨some AutoPromptType.CONTRIBUTION, false, true⟩ ⟨false, true⟩
    rfl rfl rfl rfl rfl

/-- C9: on an unlocked page a qualifying mini-prompt impression (resp.
dismissal) event performs exactly one get of the corresponding log followed
by exactly one set whose value keeps the prior entries in their original
order and appends the current timestamp last; any other event performs no
store access. -/
theorem eventListener_store_effects (st : StorageState) (now : Int)
    (e : AnalyticsEvent) :
    (isImpressionEvent e = true →
      handleClientEvent false st now e =
        ⟨[StorageKey.impressions],
          [(StorageKey.impressions, st.impressionsLog ++ [now])]⟩) ∧
    (isDismissalEvent e = true →
      handleClientEvent false st now e =
        ⟨[StorageKey.dismissals],
          [(StorageKey.dismissals, st.dismissalsLog ++ [now])]⟩) ∧
    (isImpressionEvent e = false → isDismissalEvent e = false →
      handleClientEvent false st now e = ⟨[], []⟩) := by
  refine ⟨fun h => ?_, fun h => ?_, fun h1 h2 => ?_⟩
  · simp [handleClientEvent, h]
  · have hni : isImpressionEvent e = false := by
      cases e <;> simp_all [isImpressionEvent, isDismissalEvent]
    simp [handleClientEvent, hni, h]
  · simp [handleClientEvent, h1, h2]

/-- C9 witness: a contribution mini-prompt impression on an unlocked page
appends the current time to the prior impressions log, preserving it. -/
theorem eventListener_store_effects_witness :
    isImpressionEvent
      AnalyticsEvent.IMPRESSION_SWG_CONTRIBUTION_MINI_PROMPT = true ∧
    handleClientEvent false ⟨[5], [7]⟩ 9
      AnalyticsEvent.IMPRESSION_SWG_CONTRIBUTION_MINI_PROMPT =
      ⟨[StorageKey.impressions], [(StorageKey.impressions, [5, 9])]⟩ := by
  refine ⟨rfl, ?_⟩
  exact (eventListener_store_effects ⟨[5], [7]⟩ 9
    AnalyticsEvent.IMPRESSION_SWG_CONTRIBUTION_MINI_PROMPT).1 rfl

/-!
PageConfigResolver (src/model/page-config-resolver.js).  The three DOM
scanners are one-shot functions of the document: at a given lifecycle point
each scanner's check() either yields a PageConfig or null.  A DocSnapshot
records those three results together with document readiness at that point.
resolveConfig schedules check() at two points: immediately (a resolved
microtask) and once the document is ready.
-/

/-- What the document offers to the resolver at one lifecycle point: the
result each of the three scanners' check() would produce, and whether the
document is fully parsed (doc.isReady()). -/
structure DocSnapshot where
  metaCheck : Option PageConfig
  ldCheck : Option PageConfig
  microCheck : Option PageConfig
  isReady : Bool
deriving DecidableEq, Repr

/-- Outcome of the resolution promise: resolved with a config, rejected with
an error message, or still pending after a check. -/
inductive ResolveOutcome
  | resolved (config : PageConfig)
  | rejected (message : String)
  | pending
deriving DecidableEq, Repr

/-- PageConfigResolver.check (page-config-resolver.js lines 82-108): try the
meta scanner, then the JSON-LD scanner, then the microdata scanner; the first
yielding a config resolves the promise; with none found, reject if the
document is fully parsed, otherwise stay pending. -/
def checkOnce (s : DocSnapshot) : ResolveOutcome :=
  let config :=
    match s.metaCheck with
    | some c => some c
    | none =>
      match s.ldCheck with
      | some c => some c
      | none => s.microCheck
  match config with
  | some c => ResolveOutcome.resolved c
  | none =>
    if s.isReady then
      ResolveOutcome.rejected "No config could be discovered in the page"
    else ResolveOutcome.pending

/-- PageConfigResolver.resolveConfig (page-config-resolver.js lines 72-77):
check runs at two lifecycle points, immediately and once the document is
ready; the second run only acts when the first left the promise pending
(check returns early once configResolver_ is null). -/
def resolveConfig (immediate ready : DocSnapshot) : ResolveOutcome :=
  match checkOnce immediate with
  | ResolveOutcome.pending => checkOnce ready
  | r => r

/-- C10: the resolver tries meta tag, then JSON-LD, then microdata, in that
fixed order, at two lifecycle points; the first strategy to yield a product
identifier determines the resolved PageConfig (within a check and across the
two checks), and when no strategy has yielded one by the time the document is
fully parsed the promise rejects with a descriptive error. -/
theorem resolveConfig_strategy_order (s1 s2 : DocSnapshot) (c : PageConfig) :
    (s1.metaCheck = some c →
      resolveConfig s1 s2 = ResolveOutcome.resolved c) ∧
    (s1.metaCheck = none → s1.ldCheck = some c →
      resolveConfig s1 s2 = ResolveOutcome.resolved c) ∧
    (s1.metaCheck = none → s1.ldCheck = none → s1.microCheck = some c →
      resolveConfig s1 s2 = ResolveOutcome.resolved c) ∧
    (checkOnce s1 = ResolveOutcome.pending →
      resolveConfig s1 s2 = checkOnce s2) ∧
    (s1.metaCheck = none → s1.ldCheck = none → s1.microCheck = none →
      s2.metaCheck = none → s2.ldCheck = none → s2.microCheck = none →
      s2.isReady = true →
      resolveConfig s1 s2 =
        ResolveOutcome.rejected "No config could be discovered in the page") := by
  refine ⟨fun h1 => ?_, fun h1 h2 => ?_, fun h1 h2 h3 => ?_, fun h => ?_,
    fun h1 h2 h3 h4 h5 h6 h7 => ?_⟩
  · simp [resolveConfig, checkOnce, h1]
  · simp [resolveConfig, checkOnce, h1, h2]
  · simp [resolveConfig, checkOnce, h1, h2, h3]
  · simp [resolveConfig, h]
  · cases hr : s1.isReady <;>
      simp [resolveConfig, checkOnce, h1, h2, h3, h4, h5, h6, h7, hr]

/-- C10 witness: with nothing discoverable immediately (document not yet
ready) and only the JSON-LD scanner yielding at document-ready, the promise
resolves with that config; the meta-first order is exercised through the
theorem. -/
theorem resolveConfig_strategy_order_witness :
    (DocSnapshot.mk none none none false).metaCheck = none ∧
    checkOnce (DocSnapshot.mk none none none false) =
      ResolveOutcome.pending ∧
    resolveConfig (DocSnapshot.mk none none none false)
      (DocSnapshot.mk none (some ⟨"pub1:label1", false⟩) none true) =
      checkOnce (DocSnapshot.mk none (some ⟨"pub1:label1", false⟩) none true) ∧
    checkOnce (DocSnapshot.mk none (some ⟨"pub1:label1", false⟩) none true) =
      ResolveOutcome.resolved ⟨"pub1:label1", false⟩ := by
  refine ⟨rfl, rfl, ?_, rfl⟩
  exact (resolveConfig_strategy_order (DocSnapshot.mk none none none false)
    (DocSnapshot.mk none (some ⟨"pub1:label1", false⟩) none true)
    ⟨"pub1:label1", false⟩).2.2.2.1 rfl
